import Mathlib

set_option maxRecDepth 10000

/-!
Shallow embedding of the NES emulator core (CPU, mappers, APU) of the
pico repository, together with theorems settling the frozen claims about
it.  Machine integers are modelled as Nat with explicit reductions
modulo 256 (u8) and 65536 (u16) where the Rust code wraps.
-/

/-- Result of wrapping subtraction on a u8 value (Rust u8.wrapping_sub), for
arguments below 256. -/
def u8wrapSub (x y : Nat) : Nat := (x + 256 - y % 256) % 256

/-- Modelled from the spec: the nametable mirroring mode enum
(crate::cart::Mirroring, file src/cart.rs, not under src/).  The glossary of
the spec lists the modes vertical, horizontal, single-screen, four-screen. -/
inductive Mirroring where
  | Vertical
  | Horizontal
  | SingleScreen
  | FourScreen
deriving DecidableEq, Repr

/-- Modelled from the spec: crate::memory::Memory (file src/memory.rs, not
under src/).  The CPU of this repository addresses a flat 16-bit space
(section 3 of the spec); read returns a byte, and the 16-bit accessors are
little-endian as required for vectors and absolute operands (section 4.1).
We model the 64 KiB space as a total byte function. -/
structure Memory where
  data : Nat → Nat

/-- Modelled from the spec: Memory::read returns the byte stored at the
16-bit address. -/
def Memory.read (m : Memory) (addr : Nat) : Nat :=
  m.data (addr % 65536) % 256

/-- Modelled from the spec: Memory::write stores a byte at the 16-bit
address. -/
def Memory.write (m : Memory) (addr value : Nat) : Memory :=
  ⟨fun a => if a = addr % 65536 then value else m.data a⟩

/-- Modelled from the spec: Memory::read_u16 reads a little-endian 16-bit
word (low byte first). -/
def Memory.read_u16 (m : Memory) (addr : Nat) : Nat :=
  m.read addr + 256 * m.read ((addr + 1) % 65536)

/-- Modelled from the spec: Memory::write_u16 stores a little-endian 16-bit
word (low byte first). -/
def Memory.write_u16 (m : Memory) (addr value : Nat) : Memory :=
  (m.write addr (value % 256)).write ((addr + 1) % 65536) (value / 256 % 256)

/-- AddressingMode enum of src/cpu.rs. -/
inductive AddressingMode where
  | Accumulator
  | Immediate
  | ZeroPage
  | ZeroPageX
  | ZeroPageY
  | Relative
  | Absolute
  | AbsoluteX
  | AbsoluteY
  | Indirect
  | IndirectX
  | IndirectY
  | None
deriving DecidableEq, Repr

namespace StatusFlags

/-- CARRY flag bit of the StatusFlags bitflags in src/cpu.rs. -/
def CARRY : Nat := 0x01

/-- ZERO flag bit. -/
def ZERO : Nat := 0x02

/-- INTERRUPT_DISABLE flag bit. -/
def INTERRUPT_DISABLE : Nat := 0x04

/-- DECIMAL_MODE flag bit. -/
def DECIMAL_MODE : Nat := 0x08

/-- BREAK_COMMAND flag bit. -/
def BREAK_COMMAND : Nat := 0x10

/-- UNUSED flag bit (bit 5). -/
def UNUSED : Nat := 0x20

/-- OVERFLOW flag bit. -/
def OVERFLOW : Nat := 0x40

/-- NEGATIVE flag bit. -/
def NEGATIVE : Nat := 0x80

/-- bitflags contains: all bits of the flag are present in the byte. -/
def contains (s f : Nat) : Bool := s &&& f == f

/-- bitflags insert: set the bits of the flag. -/
def insert (s f : Nat) : Nat := s ||| f

/-- bitflags remove: clear the bits of the flag (u8 complement of f). -/
def remove (s f : Nat) : Nat := s &&& (255 ^^^ f)

end StatusFlags

/-- Registers struct of src/cpu.rs; all fields are u8 except pc (u16). -/
structure Registers where
  a : Nat
  x : Nat
  y : Nat
  status : Nat
  pc : Nat
  sp : Nat
deriving DecidableEq, Repr

/-- CPU struct of src/cpu.rs. -/
structure CPU where
  registers : Registers
  memory : Memory

/-- CPU::get_operand_address of src/cpu.rs.  The Rust function returns u16
and has unreachable arms for Accumulator and None (it aborts there); those
arms are modelled as Option.none. -/
def CPU.get_operand_address (cpu : CPU) (mode : AddressingMode) : Option Nat :=
  match mode with
  | AddressingMode.Immediate => some cpu.registers.pc
  | AddressingMode.ZeroPage => some (cpu.memory.read cpu.registers.pc)
  | AddressingMode.Absolute => some (cpu.memory.read_u16 cpu.registers.pc)
  | AddressingMode.ZeroPageX =>
      some ((cpu.memory.read cpu.registers.pc + cpu.registers.x) % 256)
  | AddressingMode.ZeroPageY =>
      some ((cpu.memory.read cpu.registers.pc + cpu.registers.y) % 256)
  | AddressingMode.Relative =>
      let off := cpu.memory.read cpu.registers.pc
      let sext := if off < 128 then off else off + 0xFF00
      some ((cpu.registers.pc + 1 + sext) % 65536)
  | AddressingMode.AbsoluteX =>
      some ((cpu.memory.read_u16 cpu.registers.pc + cpu.registers.x) % 65536)
  | AddressingMode.AbsoluteY =>
      some ((cpu.memory.read_u16 cpu.registers.pc + cpu.registers.y) % 65536)
  | AddressingMode.Indirect =>
      let ptr := cpu.memory.read_u16 cpu.registers.pc
      let lo := cpu.memory.read ptr
      let hi := cpu.memory.read ((ptr + 1) % 65536)
      some ((hi <<< 8) ||| lo)
  | AddressingMode.IndirectX =>
      let base := cpu.memory.read cpu.registers.pc
      let ptr := (base + cpu.registers.x) % 256
      let lo := cpu.memory.read ptr
      let hi := cpu.memory.read ((ptr + 1) % 256)
      some ((hi <<< 8) ||| lo)
  | AddressingMode.IndirectY =>
      let base := cpu.memory.read cpu.registers.pc
      let lo := cpu.memory.read base
      let hi := cpu.memory.read ((base + 1) % 256)
      let deref_base := (hi <<< 8) ||| lo
      some ((deref_base + cpu.registers.y) % 65536)
  | AddressingMode.Accumulator => Option.none
  | AddressingMode.None => Option.none

/-- CPU::update_zero_and_negative_flags of src/cpu.rs. -/
def CPU.update_zero_and_negative_flags (cpu : CPU) (value : Nat) : CPU :=
  let st1 :=
    if value = 0 then StatusFlags.insert cpu.registers.status StatusFlags.ZERO
    else StatusFlags.remove cpu.registers.status StatusFlags.ZERO
  let st2 :=
    if value &&& 0x80 ≠ 0 then StatusFlags.insert st1 StatusFlags.NEGATIVE
    else StatusFlags.remove st1 StatusFlags.NEGATIVE
  { cpu with registers := { cpu.registers with status := st2 } }

/-- CPU::adc of src/cpu.rs.  The u16 sum of two u8 values and a carry bit
never exceeds 511, so Nat addition models the Rust u16 arithmetic exactly;
the u8 truncation `sum as u8` is the reduction modulo 256. -/
def CPU.adc (cpu : CPU) (mode : AddressingMode) : Option CPU :=
  (cpu.get_operand_address mode).map fun addr =>
    let value := cpu.memory.read addr
    let sum := cpu.registers.a + value +
      (if StatusFlags.contains cpu.registers.status StatusFlags.CARRY then 1 else 0)
    let st1 :=
      if sum > 0xFF then StatusFlags.insert cpu.registers.status StatusFlags.CARRY
      else StatusFlags.remove cpu.registers.status StatusFlags.CARRY
    let result := sum % 256
    let st2 :=
      if (cpu.registers.a ^^^ result) &&& (value ^^^ result) &&& 0x80 ≠ 0 then
        StatusFlags.insert st1 StatusFlags.OVERFLOW
      else StatusFlags.remove st1 StatusFlags.OVERFLOW
    let cpu1 :=
      { cpu with registers := { cpu.registers with a := result, status := st2 } }
    cpu1.update_zero_and_negative_flags result

/-- CPU::jmp of src/cpu.rs. -/
def CPU.jmp (cpu : CPU) (mode : AddressingMode) : Option CPU :=
  (cpu.get_operand_address mode).map fun addr =>
    { cpu with registers := { cpu.registers with pc := addr } }

/-- CPU::brk of src/cpu.rs: the body is a TODO stub that only sets the
BREAK_COMMAND flag (the run loop then returns). -/
def CPU.brk (cpu : CPU) (_mode : AddressingMode) : CPU :=
  { cpu with registers :=
      { cpu.registers with
          status := StatusFlags.insert cpu.registers.status StatusFlags.BREAK_COMMAND } }

/-- CPU::pha of src/cpu.rs. -/
def CPU.pha (cpu : CPU) : CPU :=
  let sp_addr := cpu.registers.sp + 0x0100
  { cpu with
      memory := cpu.memory.write sp_addr cpu.registers.a,
      registers := { cpu.registers with sp := u8wrapSub cpu.registers.sp 1 } }

/-- CPU::php of src/cpu.rs: pushes the raw status byte (status.bits()). -/
def CPU.php (cpu : CPU) : CPU :=
  let sp_addr := cpu.registers.sp + 0x0100
  { cpu with
      memory := cpu.memory.write sp_addr cpu.registers.status,
      registers := { cpu.registers with sp := u8wrapSub cpu.registers.sp 1 } }

/-- CPU::pla of src/cpu.rs. -/
def CPU.pla (cpu : CPU) : CPU :=
  let sp := (cpu.registers.sp + 1) % 256
  let sp_addr := sp + 0x0100
  let a := cpu.memory.read sp_addr
  CPU.update_zero_and_negative_flags
    { cpu with registers := { cpu.registers with sp := sp, a := a } } a

/-- Concrete memory for the JMP indirect example: opcode operand FF 02 at
$8000, vector low byte $34 at $02FF, $12 at $0200, $56 at $0300. -/
def jmpIndMem : Memory :=
  ⟨fun a =>
    if a = 0x8000 then 0xFF
    else if a = 0x8001 then 0x02
    else if a = 0x02FF then 0x34
    else if a = 0x0200 then 0x12
    else if a = 0x0300 then 0x56
    else 0⟩

/-- CPU state with PC at the operand of a JMP ($02FF) instruction (the run
loop has already advanced PC past the 6C opcode byte). -/
def jmpIndCpu : CPU :=
  { registers := { a := 0, x := 0, y := 0, status := 0, pc := 0x8000, sp := 0xFD },
    memory := jmpIndMem }

/-- C1: the Indirect arm of CPU::get_operand_address reads the high vector
byte from ptr+1 with 16-bit wrap, not from $xx00 of the same page; with the
pointer $02FF and memory $02FF=$34, $0200=$12, $0300=$56 the code jumps to
$5634 (high byte taken from $0300), not to $1234 as the page-wrap bug
demands. -/
theorem c1_jmp_indirect_reads_next_page :
    ((CPU.jmp jmpIndCpu AddressingMode.Indirect).map fun c => c.registers.pc) =
      some 0x5634 ∧ (0x5634 : Nat) ≠ 0x1234 := by
  constructor
  · rfl
  · decide

/-- Memory holding the IRQ/BRK vector $9000 at $FFFE/$FFFF and zero
elsewhere. -/
def brkMem : Memory :=
  ⟨fun a => if a = 0xFFFE then 0x00 else if a = 0xFFFF then 0x90 else 0⟩

/-- CPU state about to execute BRK: PC already advanced past the 00 opcode,
stack pointer $FD, all flags clear. -/
def brkCpu : CPU :=
  { registers := { a := 0, x := 0, y := 0, status := 0, pc := 0x8001, sp := 0xFD },
    memory := brkMem }

/-- C3: CPU::brk is a stub.  It neither pushes PC+1 nor the status byte,
does not set the I flag, and does not load PC from [$FFFE] (= $9000 here);
it only sets the BREAK_COMMAND flag, leaving PC, SP and the stack bytes
untouched. -/
theorem c3_brk_is_stub :
    (CPU.brk brkCpu AddressingMode.None).registers.pc = 0x8001 ∧
    (CPU.brk brkCpu AddressingMode.None).registers.pc ≠ 0x9000 ∧
    (CPU.brk brkCpu AddressingMode.None).registers.sp = 0xFD ∧
    (CPU.brk brkCpu AddressingMode.None).memory.read 0x01FD = 0 ∧
    (CPU.brk brkCpu AddressingMode.None).memory.read 0x01FC = 0 ∧
    (CPU.brk brkCpu AddressingMode.None).memory.read 0x01FB = 0 ∧
    (CPU.brk brkCpu AddressingMode.None).registers.status = 0x10 ∧
    StatusFlags.contains (CPU.brk brkCpu AddressingMode.None).registers.status
      StatusFlags.INTERRUPT_DISABLE = false := by
  refine ⟨rfl, by decide, rfl, rfl, rfl, rfl, rfl, by decide⟩

/-- CPU state about to execute PHP with an all-clear status register. -/
def phpCpu : CPU :=
  { registers := { a := 0, x := 0, y := 0, status := 0, pc := 0x8001, sp := 0xFD },
    memory := ⟨fun _ => 0⟩ }

/-- C4: CPU::php pushes the raw status byte.  With the status register 0 the
byte written to the stack at $01FD is $00, whose unused bit U (bit 5) is
clear, contradicting the invariant that U is always 1 in the pushed byte. -/
theorem c4_php_pushes_raw_status :
    (CPU.php phpCpu).memory.read 0x01FD = 0x00 ∧
    Nat.testBit ((CPU.php phpCpu).memory.read 0x01FD) 5 = false := by
  refine ⟨rfl, by decide⟩

/-- C9: PHA followed by PLA restores the accumulator, leaves X and Y
untouched, and returns the stack pointer to its initial value (the
wrapping decrement of CPU::pha is undone by the wrapping increment of
CPU::pla, and PLA reads back the byte PHA wrote at $0100+SP). -/
theorem c9_pha_pla_round_trip (cpu : CPU) (ha : cpu.registers.a < 256)
    (hsp : cpu.registers.sp < 256) :
    (CPU.pla (CPU.pha cpu)).registers.a = cpu.registers.a ∧
    (CPU.pla (CPU.pha cpu)).registers.x = cpu.registers.x ∧
    (CPU.pla (CPU.pha cpu)).registers.y = cpu.registers.y ∧
    (CPU.pla (CPU.pha cpu)).registers.sp = cpu.registers.sp := by
  have hsp2 : ((cpu.registers.sp + 256 - 1 % 256) % 256 + 1) % 256 = cpu.registers.sp := by
    omega
  simp only [CPU.pha, CPU.pla, CPU.update_zero_and_negative_flags, u8wrapSub,
    Memory.read, Memory.write, hsp2]
  simp [Nat.mod_eq_of_lt ha]

/-- Flag update written with an explicit Bool, used to evaluate the status
register chains of CPU::adc by exhaustive computation. -/
def StatusFlags.updIf (b : Bool) (f s : Nat) : Nat :=
  if b then StatusFlags.insert s f else StatusFlags.remove s f

theorem ite_insert_remove_eq_updIf (P : Prop) [Decidable P] (f s : Nat) :
    (if P then StatusFlags.insert s f else StatusFlags.remove s f) =
      StatusFlags.updIf (decide P) f s := by
  by_cases h : P <;> simp [StatusFlags.updIf, h]

theorem adcStatusChain : ∀ s < 256, ∀ bc bo bz bn : Bool,
    (StatusFlags.contains
        (StatusFlags.updIf bn StatusFlags.NEGATIVE
          (StatusFlags.updIf bz StatusFlags.ZERO
            (StatusFlags.updIf bo StatusFlags.OVERFLOW
              (StatusFlags.updIf bc StatusFlags.CARRY s))))
        StatusFlags.CARRY = bc) ∧
    (StatusFlags.contains
        (StatusFlags.updIf bn StatusFlags.NEGATIVE
          (StatusFlags.updIf bz StatusFlags.ZERO
            (StatusFlags.updIf bo StatusFlags.OVERFLOW
              (StatusFlags.updIf bc StatusFlags.CARRY s))))
        StatusFlags.OVERFLOW = bo) := by decide

theorem xor_lt_256 (a b : Nat) (ha : a < 256) (hb : b < 256) : a ^^^ b < 256 := by
  have h : a ^^^ b < 2 ^ 8 := Nat.bitwise_lt_two_pow (by simpa) (by simpa)
  simpa using h

theorem le128_iff_testBit : ∀ x < 256, (128 ≤ x ↔ x.testBit 7 = true) := by decide

theorem and128_ne_iff : ∀ x < 256, ((x &&& 128 ≠ 0) ↔ 128 ≤ x) := by decide

theorem mod256_eq_and255 : ∀ t < 512, t % 256 = t &&& 255 := by decide

/-- The overflow condition computed by CPU::adc, `(a ^ r) & (b ^ r) & $80 != 0`,
holds exactly when a and b share their sign bit and r has the opposite one. -/
theorem overflow_cond_iff (a b r : Nat) (ha : a < 256) (hb : b < 256) (hr : r < 256) :
    ((a ^^^ r) &&& (b ^^^ r) &&& 0x80 ≠ 0) ↔
      ((128 ≤ a ↔ 128 ≤ b) ∧ ¬(128 ≤ r ↔ 128 ≤ a)) := by
  have hxa : a ^^^ r < 256 := xor_lt_256 a r ha hr
  have hxb : b ^^^ r < 256 := xor_lt_256 b r hb hr
  have hand : (a ^^^ r) &&& (b ^^^ r) < 256 := lt_of_le_of_lt Nat.and_le_left hxa
  rw [show (0x80 : Nat) = 128 from rfl, and128_ne_iff _ hand,
    le128_iff_testBit _ hand, le128_iff_testBit _ ha, le128_iff_testBit _ hb,
    le128_iff_testBit _ hr, Nat.testBit_and, Nat.testBit_xor, Nat.testBit_xor]
  cases a.testBit 7 <;> cases b.testBit 7 <;> cases r.testBit 7 <;> simp

/-- Carry-in used by CPU::adc: 1 when the CARRY flag is set, else 0. -/
def adcCarryIn (cpu : CPU) : Nat :=
  if StatusFlags.contains cpu.registers.status StatusFlags.CARRY then 1 else 0

/-- C5: CPU::adc with an Immediate operand computes the byte sum modulo 256,
sets CARRY exactly when the 9-bit sum exceeds 255, and sets OVERFLOW exactly
when the two addends share a sign bit that differs from the sign bit of the
result. -/
theorem c5_adc_spec (cpu : CPU) (ha : cpu.registers.a < 256)
    (hs : cpu.registers.status < 256) :
    ∃ cpu1, CPU.adc cpu AddressingMode.Immediate = some cpu1 ∧
      cpu1.registers.a =
        (cpu.registers.a + cpu.memory.read cpu.registers.pc + adcCarryIn cpu) &&& 0xFF ∧
      (StatusFlags.contains cpu1.registers.status StatusFlags.CARRY = true ↔
        255 < cpu.registers.a + cpu.memory.read cpu.registers.pc + adcCarryIn cpu) ∧
      (StatusFlags.contains cpu1.registers.status StatusFlags.OVERFLOW = true ↔
        ((128 ≤ cpu.registers.a ↔ 128 ≤ cpu.memory.read cpu.registers.pc) ∧
          ¬(128 ≤ (cpu.registers.a + cpu.memory.read cpu.registers.pc + adcCarryIn cpu) &&& 0xFF ↔
             128 ≤ cpu.registers.a))) := by
  have hb : cpu.memory.read cpu.registers.pc < 256 := by
    unfold Memory.read
    exact Nat.mod_lt _ (by norm_num)
  have hcin : adcCarryIn cpu ≤ 1 := by
    unfold adcCarryIn
    split <;> norm_num
  have hsum : cpu.registers.a + cpu.memory.read cpu.registers.pc + adcCarryIn cpu < 512 := by
    omega
  have hmod := mod256_eq_and255 _ hsum
  simp only [adcCarryIn] at hsum hmod
  refine ⟨_, rfl, ?_, ?_, ?_⟩ <;>
    simp only [CPU.adc, CPU.get_operand_address, CPU.update_zero_and_negative_flags,
      Option.map, adcCarryIn]
  · exact hmod
  · rw [ite_insert_remove_eq_updIf, ite_insert_remove_eq_updIf,
      ite_insert_remove_eq_updIf, ite_insert_remove_eq_updIf,
      (adcStatusChain cpu.registers.status hs _ _ _ _).1, decide_eq_true_eq]
  · rw [ite_insert_remove_eq_updIf, ite_insert_remove_eq_updIf,
      ite_insert_remove_eq_updIf, ite_insert_remove_eq_updIf,
      (adcStatusChain cpu.registers.status hs _ _ _ _).2, decide_eq_true_eq,
      ← hmod]
    exact overflow_cond_iff cpu.registers.a (cpu.memory.read cpu.registers.pc) _
      ha hb (Nat.mod_lt _ (by norm_num))

/-- Concrete CPU for exercising the ADC theorem: A=$50, CARRY set, operand
byte $50 at PC. -/
def adcCpu : CPU :=
  { registers := { a := 0x50, x := 0, y := 0, status := 0x01, pc := 0x8000, sp := 0xFD },
    memory := ⟨fun a => if a = 0x8000 then 0x50 else 0⟩ }

/-- Witness for the ADC theorem at a concrete state ($50 + $50 + 1). -/
theorem c5_adc_spec_witness :
    adcCpu.registers.a < 256 ∧ adcCpu.registers.status < 256 ∧
    (∃ cpu1, CPU.adc adcCpu AddressingMode.Immediate = some cpu1 ∧
      cpu1.registers.a =
        (adcCpu.registers.a + adcCpu.memory.read adcCpu.registers.pc + adcCarryIn adcCpu) &&& 0xFF ∧
      (StatusFlags.contains cpu1.registers.status StatusFlags.CARRY = true ↔
        255 < adcCpu.registers.a + adcCpu.memory.read adcCpu.registers.pc + adcCarryIn adcCpu) ∧
      (StatusFlags.contains cpu1.registers.status StatusFlags.OVERFLOW = true ↔
        ((128 ≤ adcCpu.registers.a ↔ 128 ≤ adcCpu.memory.read adcCpu.registers.pc) ∧
          ¬(128 ≤ (adcCpu.registers.a + adcCpu.memory.read adcCpu.registers.pc +
                adcCarryIn adcCpu) &&& 0xFF ↔
             128 ≤ adcCpu.registers.a)))) :=
  ⟨by decide, by decide, c5_adc_spec adcCpu (by decide) (by decide)⟩

/-- Concrete CPU for exercising the PHA/PLA theorem, with SP = 0 so the
pointer wraps through $FF and back. -/
def phaPlaCpu : CPU :=
  { registers := { a := 0x7A, x := 3, y := 4, status := 0, pc := 0x8000, sp := 0 },
    memory := ⟨fun _ => 0⟩ }

/-- Witness for the PHA/PLA round-trip theorem at a concrete state. -/
theorem c9_pha_pla_round_trip_witness :
    phaPlaCpu.registers.a < 256 ∧ phaPlaCpu.registers.sp < 256 ∧
    ((CPU.pla (CPU.pha phaPlaCpu)).registers.a = phaPlaCpu.registers.a ∧
     (CPU.pla (CPU.pha phaPlaCpu)).registers.x = phaPlaCpu.registers.x ∧
     (CPU.pla (CPU.pha phaPlaCpu)).registers.y = phaPlaCpu.registers.y ∧
     (CPU.pla (CPU.pha phaPlaCpu)).registers.sp = phaPlaCpu.registers.sp) :=
  ⟨by decide, by decide, c9_pha_pla_round_trip phaPlaCpu (by decide) (by decide)⟩

/-- CnRomMapper struct of src/mapper/cnrom.rs. -/
structure CnRomMapper where
  prg_rom : List Nat
  chr_rom : List Nat
  chr_bank : Nat
  mirroring : Mirroring
deriving DecidableEq, Repr

/-- CnRomMapper::new of src/mapper/cnrom.rs. -/
def CnRomMapper.new (prg_rom chr_rom : List Nat) (mirroring : Mirroring) : CnRomMapper :=
  { prg_rom := prg_rom, chr_rom := chr_rom, chr_bank := 0, mirroring := mirroring }

/-- CnRomMapper::read_prg: fixed 32 KiB PRG at $8000-$FFFF. -/
def CnRomMapper.read_prg (m : CnRomMapper) (addr : Nat) : Nat :=
  if 0x8000 ≤ addr ∧ addr ≤ 0xFFFF then
    m.prg_rom.getD ((addr - 0x8000) % m.prg_rom.length) 0
  else 0

/-- CnRomMapper::write_prg: the body ignores the write entirely. -/
def CnRomMapper.write_prg (m : CnRomMapper) (_addr _data : Nat) : CnRomMapper :=
  m

/-- CnRomMapper::read_chr: reads through the selected 8 KiB CHR bank. -/
def CnRomMapper.read_chr (m : CnRomMapper) (addr : Nat) : Nat :=
  m.chr_rom.getD ((m.chr_bank * 8192 + addr) % m.chr_rom.length) 0

/-- CnRomMapper::write_chr: selects the CHR bank from the low 2 bits when the
address is at most $1FFF. -/
def CnRomMapper.write_chr (m : CnRomMapper) (addr data : Nat) : CnRomMapper :=
  if addr ≤ 0x1FFF then { m with chr_bank := data &&& 0x03 } else m

/-- C8: on the CNROM mapper of this repository a PRG-range write does not
select the CHR bank: CnRomMapper::write_prg ignores every write, leaving the
mapper (including chr_bank) unchanged; the bank select is instead performed
by write_chr for addresses at or below $1FFF. -/
theorem c8_cnrom_prg_write_ignored :
    CnRomMapper.write_prg (CnRomMapper.new [] [] Mirroring.Vertical) 0x8000 0x01 =
      CnRomMapper.new [] [] Mirroring.Vertical ∧
    (CnRomMapper.write_prg (CnRomMapper.new [] [] Mirroring.Vertical) 0x8000 0x01).chr_bank = 0 ∧
    (CnRomMapper.write_chr (CnRomMapper.new [] [] Mirroring.Vertical) 0x0000 0x01).chr_bank = 1 :=
  ⟨rfl, rfl, rfl⟩

/-- Mmc1Mapper struct of src/mapper/mmc1.rs (internal state, bank select
registers, bank indices, mirroring). -/
structure Mmc1Mapper where
  prg_rom : List Nat
  chr_rom : List Nat
  prg_ram : List Nat
  shift_register : Nat
  shift_count : Nat
  prg_bank_mode : Nat
  chr_bank_mode : Nat
  prg_bank_0 : Nat
  prg_bank_1 : Nat
  prg_bank_2 : Nat
  prg_bank_3 : Nat
  chr_bank_0 : Nat
  chr_bank_1 : Nat
  chr_bank_2 : Nat
  chr_bank_3 : Nat
  chr_bank_4 : Nat
  chr_bank_5 : Nat
  current_mirroring : Mirroring
  mirroring_control : Nat
deriving DecidableEq, Repr

/-- Mmc1Mapper::new of src/mapper/mmc1.rs. -/
def Mmc1Mapper.new (prg_rom chr_rom : List Nat) (mirroring : Mirroring) : Mmc1Mapper :=
  let total_prg_banks := prg_rom.length / 16384
  { prg_rom := prg_rom
    chr_rom := chr_rom
    prg_ram := List.replicate 8192 0
    shift_register := 0
    shift_count := 0
    prg_bank_mode := 0
    chr_bank_mode := 0
    prg_bank_0 := 0
    prg_bank_1 := if total_prg_banks > 1 then 1 else 0
    prg_bank_2 := if total_prg_banks > 2 then (total_prg_banks - 2) % 256 else 0
    prg_bank_3 := if total_prg_banks > 3 then (total_prg_banks - 1) % 256 else 0
    chr_bank_0 := 0
    chr_bank_1 := 1
    chr_bank_2 := 2
    chr_bank_3 := 3
    chr_bank_4 := 4
    chr_bank_5 := 5
    current_mirroring := mirroring
    mirroring_control := 0 }

/-- Mmc1Mapper::write_control_register of src/mapper/mmc1.rs. -/
def Mmc1Mapper.write_control_register (m : Mmc1Mapper) (value : Nat) : Mmc1Mapper :=
  { m with
      mirroring_control := value &&& 0x03
      current_mirroring :=
        if value &&& 0x03 = 0 then Mirroring.Vertical
        else if value &&& 0x03 = 1 then Mirroring.Horizontal
        else if value &&& 0x03 = 2 then Mirroring.Vertical
        else if value &&& 0x03 = 3 then Mirroring.Horizontal
        else Mirroring.Vertical }

/-- Mmc1Mapper::write_chr_bank_register of src/mapper/mmc1.rs. -/
def Mmc1Mapper.write_chr_bank_register (m : Mmc1Mapper) (reg value : Nat) : Mmc1Mapper :=
  if reg = 0 then { m with chr_bank_0 := value &&& 0x1F }
  else if reg = 1 then { m with chr_bank_1 := value &&& 0x1F }
  else if reg = 2 then { m with chr_bank_2 := value &&& 0x1F }
  else if reg = 3 then { m with chr_bank_3 := value &&& 0x1F }
  else if reg = 4 then { m with chr_bank_4 := value &&& 0x1F }
  else if reg = 5 then { m with chr_bank_5 := value &&& 0x1F }
  else m

/-- Mmc1Mapper::write_prg_bank_register of src/mapper/mmc1.rs. -/
def Mmc1Mapper.write_prg_bank_register (m : Mmc1Mapper) (reg value : Nat) : Mmc1Mapper :=
  if reg = 0 then { m with prg_bank_0 := value &&& 0x0F }
  else if reg = 1 then { m with prg_bank_1 := value &&& 0x0F }
  else if reg = 2 then { m with prg_bank_2 := value &&& 0x0F }
  else if reg = 3 then { m with prg_bank_3 := value &&& 0x0F }
  else m

/-- Dispatch on prg_bank_mode shared by both arms of
Mmc1Mapper::process_write_data (the Rust match 0..=3 / 4..=5 / 6..=7). -/
def Mmc1Mapper.execute_command (m : Mmc1Mapper) : Mmc1Mapper :=
  if m.prg_bank_mode ≤ 3 then m.write_control_register m.shift_register
  else if m.prg_bank_mode ≤ 5 then
    m.write_chr_bank_register (m.prg_bank_mode - 4) m.shift_register
  else if m.prg_bank_mode ≤ 7 then
    m.write_prg_bank_register (m.prg_bank_mode - 6) m.shift_register
  else m

/-- Mmc1Mapper::process_write_data of src/mapper/mmc1.rs.  Only bit 0 of the
written value is looked at: 0 resets the shift register (and runs the
command dispatch with the already-cleared shift register), 1 is shifted into
bit 4; on the fifth shifted-in bit the command executes and the shift state
clears. -/
def Mmc1Mapper.process_write_data (m : Mmc1Mapper) (_reg value : Nat) : Mmc1Mapper :=
  let value := value &&& 0x01
  if value = 0 then
    let m1 := { m with shift_count := 0, shift_register := 0 }
    m1.execute_command
  else
    let m1 := { m with
      shift_register := (m.shift_register >>> 1) ||| (value <<< 4)
      shift_count := m.shift_count + 1 }
    if m1.shift_count = 5 then
      let m2 := m1.execute_command
      { m2 with shift_count := 0, shift_register := 0 }
    else m1

/-- Mmc1Mapper::write_prg of src/mapper/mmc1.rs: bits 13-15 of the address
are stored as prg_bank_mode before the serial write is processed. -/
def Mmc1Mapper.write_prg (m : Mmc1Mapper) (addr data : Nat) : Mmc1Mapper :=
  if 0x6000 ≤ addr ∧ addr ≤ 0x7FFF then
    { m with prg_ram := m.prg_ram.set (addr - 0x6000) data }
  else if 0x8000 ≤ addr ∧ addr ≤ 0xFFFF then
    let m1 := { m with prg_bank_mode := (addr >>> 13) &&& 0x07 }
    m1.process_write_data ((addr >>> 13) &&& 0x07) data
  else m

/-- Shorthand for the MMC1 reset scenario of the claim: three writes of $FF
followed by one write of $80, all to $8000, on a fresh mapper. -/
def mmc1AfterFF : Mmc1Mapper :=
  Mmc1Mapper.write_prg (Mmc1Mapper.new [] [] Mirroring.Vertical) 0x8000 0xFF

/-- State after the full $FF,$FF,$FF,$80 write sequence of the claim. -/
def mmc1AfterSeq : Mmc1Mapper :=
  Mmc1Mapper.write_prg
    (Mmc1Mapper.write_prg (Mmc1Mapper.write_prg mmc1AfterFF 0x8000 0xFF) 0x8000 0xFF)
    0x8000 0x80

/-- C2: a $8000-$FFFF write with bit 7 set does not reset the MMC1 shift
register: writing $FF (bit 7 set) to $8000 on a fresh mapper shifts bit 0
into the register, leaving it $10 with shift_count 1.  The reset path of the
code is keyed on bit 0 being 0, and after the full $FF,$FF,$FF,$80 sequence
no register is ORed with $0C: the dispatch (address bits select chr bank
register 0) writes 0 to chr_bank_0 and the control bits stay 0. -/
theorem c2_mmc1_bit7_does_not_reset :
    mmc1AfterFF.shift_register = 0x10 ∧
    mmc1AfterFF.shift_register ≠ 0 ∧
    mmc1AfterFF.shift_count = 1 ∧
    mmc1AfterSeq.shift_register = 0 ∧
    mmc1AfterSeq.mirroring_control = 0 ∧
    mmc1AfterSeq.chr_bank_0 = 0 ∧
    mmc1AfterSeq.prg_bank_mode = 4 :=
  ⟨rfl, by decide, rfl, rfl, rfl, rfl, rfl⟩

/-- Mmc3Mapper struct of src/mapper/mmc3.rs. -/
structure Mmc3Mapper where
  prg_rom : List Nat
  chr : List Nat
  chr_is_ram : Bool
  prg_ram : List Nat
  prg_ram_enable : Bool
  prg_ram_write_protect : Bool
  bank_registers : List Nat
  selected_register : Nat
  chr_inversion : Bool
  prg_mode : Bool
  mirroring : Mirroring
  mirroring_locked : Bool
  irq_latch : Nat
  irq_counter : Nat
  irq_reload : Bool
  irq_enabled : Bool
  irq_pending : Bool
deriving DecidableEq, Repr

/-- Mmc3Mapper::new of src/mapper/mmc3.rs. -/
def Mmc3Mapper.new (prg_rom chr_rom : List Nat) (mirroring : Mirroring) : Mmc3Mapper :=
  let chr_is_ram := chr_rom.isEmpty
  let chr := if chr_is_ram then List.replicate 0x2000 0 else chr_rom
  { prg_rom := prg_rom
    chr := chr
    chr_is_ram := chr_is_ram
    prg_ram := List.replicate 0x2000 0
    prg_ram_enable := true
    prg_ram_write_protect := false
    bank_registers := [0, 2, 4, 5, 6, 7, 0, 1]
    selected_register := 0
    chr_inversion := false
    prg_mode := false
    mirroring := mirroring
    mirroring_locked := mirroring = Mirroring.FourScreen
    irq_latch := 0
    irq_counter := 0
    irq_reload := false
    irq_enabled := false
    irq_pending := false }

/-- Mmc3Mapper::write_bank_select of src/mapper/mmc3.rs. -/
def Mmc3Mapper.write_bank_select (m : Mmc3Mapper) (data : Nat) : Mmc3Mapper :=
  { m with
      selected_register := data &&& 0x07
      prg_mode := data &&& 0x40 ≠ 0
      chr_inversion := data &&& 0x80 ≠ 0 }

/-- Mmc3Mapper::write_bank_data of src/mapper/mmc3.rs. -/
def Mmc3Mapper.write_bank_data (m : Mmc3Mapper) (data : Nat) : Mmc3Mapper :=
  let target := m.selected_register &&& 0x07
  let value := if target ≤ 1 then data &&& 0xFE else data
  { m with bank_registers := m.bank_registers.set target value }

/-- Mmc3Mapper::update_mirroring of src/mapper/mmc3.rs. -/
def Mmc3Mapper.update_mirroring (m : Mmc3Mapper) (data : Nat) : Mmc3Mapper :=
  if m.mirroring_locked then m
  else { m with
    mirroring := if data &&& 0x01 = 0 then Mirroring.Vertical else Mirroring.Horizontal }

/-- Mmc3Mapper::update_prg_ram_protection of src/mapper/mmc3.rs. -/
def Mmc3Mapper.update_prg_ram_protection (m : Mmc3Mapper) (data : Nat) : Mmc3Mapper :=
  { m with
      prg_ram_enable := data &&& 0x80 ≠ 0
      prg_ram_write_protect := data &&& 0x40 ≠ 0 }

/-- Mmc3Mapper::reload_irq_counter of src/mapper/mmc3.rs. -/
def Mmc3Mapper.reload_irq_counter (m : Mmc3Mapper) : Mmc3Mapper :=
  { m with irq_counter := m.irq_latch }

/-- Mmc3Mapper::clock_irq_counter of src/mapper/mmc3.rs: reload when a
reload is pending or the counter is zero, else decrement (u8 wrapping);
then assert the pending flag when the counter is zero and IRQs are
enabled. -/
def Mmc3Mapper.clock_irq_counter (m : Mmc3Mapper) : Mmc3Mapper :=
  let m1 :=
    if m.irq_reload ∨ m.irq_counter = 0 then
      { m.reload_irq_counter with irq_reload := false }
    else { m with irq_counter := u8wrapSub m.irq_counter 1 }
  if m1.irq_counter = 0 ∧ m1.irq_enabled then { m1 with irq_pending := true } else m1

/-- Mmc3Mapper::write_prg of src/mapper/mmc3.rs. -/
def Mmc3Mapper.write_prg (m : Mmc3Mapper) (addr data : Nat) : Mmc3Mapper :=
  if 0x6000 ≤ addr ∧ addr ≤ 0x7FFF then
    if m.prg_ram_enable ∧ ¬m.prg_ram_write_protect then
      { m with prg_ram := m.prg_ram.set (addr - 0x6000) data }
    else m
  else if 0x8000 ≤ addr ∧ addr ≤ 0x9FFF then
    if addr &&& 1 = 0 then m.write_bank_select data else m.write_bank_data data
  else if 0xA000 ≤ addr ∧ addr ≤ 0xBFFF then
    if addr &&& 1 = 0 then m.update_mirroring data else m.update_prg_ram_protection data
  else if 0xC000 ≤ addr ∧ addr ≤ 0xDFFF then
    if addr &&& 1 = 0 then { m with irq_latch := data } else { m with irq_reload := true }
  else if 0xE000 ≤ addr ∧ addr ≤ 0xFFFF then
    if addr &&& 1 = 0 then
      { m.reload_irq_counter with irq_enabled := false, irq_pending := false }
    else { m with irq_enabled := true }
  else m

/-- Mmc3Mapper::handle_scanline of src/mapper/mmc3.rs. -/
def Mmc3Mapper.handle_scanline (m : Mmc3Mapper) (rendering_enabled : Bool) : Mmc3Mapper :=
  if rendering_enabled then m.clock_irq_counter else m

/-- Mmc3Mapper::poll_irq of src/mapper/mmc3.rs. -/
def Mmc3Mapper.poll_irq (m : Mmc3Mapper) : Option Nat :=
  if m.irq_pending then some 0 else Option.none

/-- MMC3 state after programming latch=1 ($C000), requesting a reload
($C001) and enabling IRQs ($E001) on a fresh mapper, as in the claim
scenario. -/
def mmc3Armed : Mmc3Mapper :=
  Mmc3Mapper.write_prg
    (Mmc3Mapper.write_prg
      (Mmc3Mapper.write_prg (Mmc3Mapper.new [] [] Mirroring.Horizontal) 0xC000 1)
      0xC001 0)
    0xE001 0

/-- C7: each MMC3 IRQ clock reloads the counter from the latch (clearing the
pending-reload flag) when the counter is zero or a reload is pending, and
otherwise decrements it; the IRQ-pending flag is asserted exactly when the
resulting counter is zero with IRQs enabled.  Consequently, with latch=1 the
IRQ fires on the second scanline clock after a reload request. -/
theorem c7_mmc3_irq_clock (m : Mmc3Mapper) (hc : m.irq_counter < 256) :
    ((m.irq_reload ∨ m.irq_counter = 0) →
      ((m.clock_irq_counter).irq_counter = m.irq_latch ∧
       (m.clock_irq_counter).irq_reload = false)) ∧
    (¬(m.irq_reload ∨ m.irq_counter = 0) →
      ((m.clock_irq_counter).irq_counter = m.irq_counter - 1 ∧
       (m.clock_irq_counter).irq_reload = m.irq_reload)) ∧
    ((m.clock_irq_counter).irq_pending =
      (m.irq_pending || ((m.clock_irq_counter).irq_counter == 0 && m.irq_enabled))) ∧
    ((mmc3Armed.handle_scanline true).irq_pending = false ∧
     ((mmc3Armed.handle_scanline true).handle_scanline true).irq_pending = true) := by
  refine ⟨?_, ?_, ?_, by decide, by decide⟩
  · intro h
    simp [Mmc3Mapper.clock_irq_counter, Mmc3Mapper.reload_irq_counter, h]
    split <;> simp
  · intro h
    have hc0 : m.irq_counter ≠ 0 := by tauto
    simp [Mmc3Mapper.clock_irq_counter, Mmc3Mapper.reload_irq_counter, h, u8wrapSub]
    constructor
    · split <;> simp <;> omega
    · split <;> simp
  · by_cases h : m.irq_reload ∨ m.irq_counter = 0 <;>
      simp [Mmc3Mapper.clock_irq_counter, Mmc3Mapper.reload_irq_counter, h, u8wrapSub] <;>
      split <;> simp_all

/-- Witness for the MMC3 IRQ clock theorem at the armed concrete state
(latch 1, reload pending, IRQs enabled). -/
theorem c7_mmc3_irq_clock_witness :
    mmc3Armed.irq_counter < 256 ∧
    (((mmc3Armed.irq_reload ∨ mmc3Armed.irq_counter = 0) →
      ((mmc3Armed.clock_irq_counter).irq_counter = mmc3Armed.irq_latch ∧
       (mmc3Armed.clock_irq_counter).irq_reload = false)) ∧
    (¬(mmc3Armed.irq_reload ∨ mmc3Armed.irq_counter = 0) →
      ((mmc3Armed.clock_irq_counter).irq_counter = mmc3Armed.irq_counter - 1 ∧
       (mmc3Armed.clock_irq_counter).irq_reload = mmc3Armed.irq_reload)) ∧
    ((mmc3Armed.clock_irq_counter).irq_pending =
      (mmc3Armed.irq_pending ||
        ((mmc3Armed.clock_irq_counter).irq_counter == 0 && mmc3Armed.irq_enabled))) ∧
    ((mmc3Armed.handle_scanline true).irq_pending = false ∧
     ((mmc3Armed.handle_scanline true).handle_scanline true).irq_pending = true)) :=
  ⟨by decide, c7_mmc3_irq_clock mmc3Armed (by decide)⟩

/-- LENGTH_TABLE constant of src/apu/mod.rs. -/
def LENGTH_TABLE : List Nat :=
  [10, 254, 20, 2, 40, 4, 80, 6, 160, 8, 60, 10, 14, 12, 26, 14, 12, 16, 24, 18,
   48, 20, 96, 22, 192, 24, 72, 26, 16, 28, 32, 30]

/-- NOISE_PERIOD_TABLE constant of src/apu/mod.rs. -/
def NOISE_PERIOD_TABLE : List Nat :=
  [4, 8, 16, 32, 64, 96, 128, 160, 202, 254, 380, 508, 762, 1016, 2034, 4068]

/-- Envelope struct of src/apu/mod.rs. -/
structure Envelope where
  constant_volume : Bool
  loop_flag : Bool
  volume : Nat
  start_flag : Bool
  divider : Nat
  decay_level : Nat
deriving DecidableEq, Repr

/-- Envelope::new of src/apu/mod.rs. -/
def Envelope.new : Envelope :=
  { constant_volume := false, loop_flag := false, volume := 0,
    start_flag := false, divider := 0, decay_level := 0 }

/-- Envelope::set_control of src/apu/mod.rs. -/
def Envelope.set_control (e : Envelope) (data : Nat) : Envelope :=
  { e with
      constant_volume := data &&& 0x10 ≠ 0
      loop_flag := data &&& 0x20 ≠ 0
      volume := data &&& 0x0F }

/-- Envelope::restart of src/apu/mod.rs. -/
def Envelope.restart (e : Envelope) : Envelope :=
  { e with start_flag := true }

/-- Envelope::divider_period of src/apu/mod.rs (u8 saturating_add 1). -/
def Envelope.divider_period (e : Envelope) : Nat :=
  min ((e.volume &&& 0x0F) + 1) 255

/-- Envelope::clock of src/apu/mod.rs. -/
def Envelope.clock (e : Envelope) : Envelope :=
  if e.start_flag then
    { e with start_flag := false, decay_level := 15, divider := e.divider_period }
  else if e.divider = 0 then
    let e1 := { e with divider := e.divider_period }
    if e1.decay_level = 0 then
      if e1.loop_flag then { e1 with decay_level := 15 } else e1
    else { e1 with decay_level := e1.decay_level - 1 }
  else { e with divider := e.divider - 1 }

/-- Envelope::halt of src/apu/mod.rs. -/
def Envelope.halt (e : Envelope) : Bool := e.loop_flag

/-- NoiseChannel struct of src/apu/mod.rs. -/
structure NoiseChannel where
  enabled : Bool
  envelope : Envelope
  length_counter : Nat
  timer_period : Nat
  timer_value : Nat
  mode : Bool
  shift_register : Nat
deriving DecidableEq, Repr

/-- NoiseChannel::new of src/apu/mod.rs: the LFSR starts at 1. -/
def NoiseChannel.new : NoiseChannel :=
  { enabled := false, envelope := Envelope.new, length_counter := 0,
    timer_period := 0, timer_value := 0, mode := false, shift_register := 1 }

/-- NoiseChannel::write_control of src/apu/mod.rs. -/
def NoiseChannel.write_control (ch : NoiseChannel) (data : Nat) : NoiseChannel :=
  { ch with envelope := ch.envelope.set_control data }

/-- NoiseChannel::write_period of src/apu/mod.rs. -/
def NoiseChannel.write_period (ch : NoiseChannel) (data : Nat) : NoiseChannel :=
  let period := NOISE_PERIOD_TABLE.getD (data &&& 0x0F) 0
  { ch with mode := data &&& 0x80 ≠ 0, timer_period := period, timer_value := period }

/-- NoiseChannel::write_length of src/apu/mod.rs. -/
def NoiseChannel.write_length (ch : NoiseChannel) (data : Nat) : NoiseChannel :=
  { ch with
      length_counter := LENGTH_TABLE.getD ((data >>> 3) &&& 0x1F) 0
      envelope := ch.envelope.restart }

/-- NoiseChannel::clock_timer of src/apu/mod.rs: on timer underflow the
15-bit LFSR shifts right with the feedback bit (bit 0 XOR bit 1 or bit 6,
depending on mode) ORed into bit 14. -/
def NoiseChannel.clock_timer (ch : NoiseChannel) : NoiseChannel :=
  if ch.timer_value = 0 then
    let feedback :=
      if ch.mode then (ch.shift_register &&& 1) ^^^ ((ch.shift_register >>> 6) &&& 1)
      else (ch.shift_register &&& 1) ^^^ ((ch.shift_register >>> 1) &&& 1)
    { ch with
        timer_value := ch.timer_period
        shift_register := (ch.shift_register >>> 1) ||| (feedback <<< 14) }
  else { ch with timer_value := ch.timer_value - 1 }

/-- NoiseChannel::clock_envelope of src/apu/mod.rs. -/
def NoiseChannel.clock_envelope (ch : NoiseChannel) : NoiseChannel :=
  { ch with envelope := ch.envelope.clock }

/-- NoiseChannel::clock_length_counter of src/apu/mod.rs. -/
def NoiseChannel.clock_length_counter (ch : NoiseChannel) : NoiseChannel :=
  if ch.length_counter > 0 ∧ ¬ch.envelope.halt then
    { ch with length_counter := ch.length_counter - 1 }
  else ch

/-- NoiseChannel::set_enabled of src/apu/mod.rs. -/
def NoiseChannel.set_enabled (ch : NoiseChannel) (enabled : Bool) : NoiseChannel :=
  { ch with enabled := enabled }

/-- NoiseChannel::clear_length of src/apu/mod.rs. -/
def NoiseChannel.clear_length (ch : NoiseChannel) : NoiseChannel :=
  { ch with length_counter := 0 }

/-- One externally reachable operation on the noise channel: the register
writes routed by APU::write_register / APU::write_status and the clocks
driven by APU::clock and the frame counter. -/
inductive NoiseOp where
  | writeControl (data : Nat)
  | writePeriod (data : Nat)
  | writeLength (data : Nat)
  | clockTimer
  | clockEnvelope
  | clockLength
  | setEnabled (enabled : Bool)
  | clearLength

/-- Apply one noise-channel operation. -/
def NoiseChannel.applyOp (ch : NoiseChannel) (op : NoiseOp) : NoiseChannel :=
  match op with
  | NoiseOp.writeControl data => ch.write_control data
  | NoiseOp.writePeriod data => ch.write_period data
  | NoiseOp.writeLength data => ch.write_length data
  | NoiseOp.clockTimer => ch.clock_timer
  | NoiseOp.clockEnvelope => ch.clock_envelope
  | NoiseOp.clockLength => ch.clock_length_counter
  | NoiseOp.setEnabled enabled => ch.set_enabled enabled
  | NoiseOp.clearLength => ch.clear_length

/-- State reached from a freshly constructed noise channel by a sequence of
operations. -/
def noiseRun (ops : List NoiseOp) : NoiseChannel :=
  ops.foldl NoiseChannel.applyOp NoiseChannel.new

theorem lor_ne_zero_left {x : Nat} (y : Nat) (hx : x ≠ 0) : x ||| y ≠ 0 := by
  obtain ⟨i, hi⟩ := Nat.ne_zero_implies_bit_true hx
  intro h0
  have hbit : (x ||| y).testBit i = false := by rw [h0]; exact Nat.zero_testBit i
  rw [Nat.testBit_or, hi] at hbit
  simp at hbit

/-- A single LFSR clock keeps the shift register nonzero: if the register is
at least 2 the shifted-down part is already nonzero, and if it is exactly 1
the feedback bit is 1 and lands in bit 14. -/
theorem clock_timer_shift_ne_zero (ch : NoiseChannel) (h : ch.shift_register ≠ 0) :
    ch.clock_timer.shift_register ≠ 0 := by
  unfold NoiseChannel.clock_timer
  split
  · rcases Nat.lt_or_ge ch.shift_register 2 with hlt | hge
    · have h1 : ch.shift_register = 1 := by omega
      cases hm : ch.mode <;> simp [h1, hm]
    · have hshift : ch.shift_register >>> 1 ≠ 0 := by
        rw [Nat.shiftRight_eq_div_pow]
        omega
      exact lor_ne_zero_left _ hshift
  · exact h

/-- No other noise-channel operation touches the shift register. -/
theorem applyOp_shift_ne_zero (ch : NoiseChannel) (op : NoiseOp)
    (h : ch.shift_register ≠ 0) : (ch.applyOp op).shift_register ≠ 0 := by
  cases op <;>
    simp only [NoiseChannel.applyOp, NoiseChannel.write_control,
      NoiseChannel.write_period, NoiseChannel.write_length,
      NoiseChannel.clock_envelope, NoiseChannel.clock_length_counter, Envelope.halt,
      NoiseChannel.set_enabled, NoiseChannel.clear_length]
  case clockTimer => exact clock_timer_shift_ne_zero ch h
  case clockLength => split <;> simpa
  all_goals simpa

/-- C10: from construction (LFSR = 1), every state reachable by any sequence
of register writes and clocks has a nonzero LFSR shift register; the
all-zero stuck state is unreachable. -/
theorem c10_noise_lfsr_never_zero (ops : List NoiseOp) :
    (noiseRun ops).shift_register ≠ 0 := by
  suffices hgen : ∀ (l : List NoiseOp) (ch : NoiseChannel), ch.shift_register ≠ 0 →
      (l.foldl NoiseChannel.applyOp ch).shift_register ≠ 0 by
    exact hgen ops NoiseChannel.new (by decide)
  intro l
  induction l with
  | nil => intro ch h; exact h
  | cons op tl ih =>
      intro ch h
      exact ih (ch.applyOp op) (applyOp_shift_ne_zero ch op h)

/-- FrameCounterMode enum of src/apu/mod.rs. -/
inductive FrameCounterMode where
  | FourStep
  | FiveStep
deriving DecidableEq, Repr

/-- FrameStep struct of src/apu/mod.rs. -/
structure FrameStep where
  cycle : Nat
  clock_quarter : Bool
  clock_half : Bool
deriving DecidableEq, Repr

/-- FOUR_STEP_SEQ constant of src/apu/mod.rs. -/
def FOUR_STEP_SEQ : List FrameStep :=
  [{ cycle := 3729, clock_quarter := true, clock_half := false },
   { cycle := 7457, clock_quarter := true, clock_half := true },
   { cycle := 11186, clock_quarter := true, clock_half := false },
   { cycle := 14916, clock_quarter := true, clock_half := true }]

/-- FIVE_STEP_SEQ constant of src/apu/mod.rs. -/
def FIVE_STEP_SEQ : List FrameStep :=
  [{ cycle := 3729, clock_quarter := true, clock_half := false },
   { cycle := 7457, clock_quarter := true, clock_half := true },
   { cycle := 11186, clock_quarter := true, clock_half := false },
   { cycle := 14916, clock_quarter := false, clock_half := false },
   { cycle := 18641, clock_quarter := true, clock_half := true }]

/-- FrameEvents struct of src/apu/mod.rs. -/
structure FrameEvents where
  quarter : Bool
  half : Bool
  irq : Bool
deriving DecidableEq, Repr

/-- FrameCounter struct of src/apu/mod.rs. -/
structure FrameCounter where
  mode : FrameCounterMode
  step_index : Nat
  cycle_counter : Nat
  irq_inhibit : Bool
deriving DecidableEq, Repr

/-- FrameCounter::new of src/apu/mod.rs. -/
def FrameCounter.new : FrameCounter :=
  { mode := FrameCounterMode.FourStep, step_index := 0, cycle_counter := 0,
    irq_inhibit := false }

/-- FrameCounter::reset of src/apu/mod.rs. -/
def FrameCounter.reset (fc : FrameCounter) : FrameCounter :=
  { fc with step_index := 0, cycle_counter := 0 }

/-- FrameCounter::tick of src/apu/mod.rs: increment the cycle counter, fire
the current sequence step when its cycle is reached, and in 4-step mode
raise the IRQ event (unless inhibited) and restart after the fourth step. -/
def FrameCounter.tick (fc : FrameCounter) : FrameCounter × FrameEvents :=
  let cycle_counter := fc.cycle_counter + 1
  let sequence :=
    match fc.mode with
    | FrameCounterMode.FourStep => FOUR_STEP_SEQ
    | FrameCounterMode.FiveStep => FIVE_STEP_SEQ
  if fc.step_index < sequence.length ∧
      cycle_counter = (sequence.getD fc.step_index { cycle := 0, clock_quarter := false, clock_half := false }).cycle then
    let step := sequence.getD fc.step_index { cycle := 0, clock_quarter := false, clock_half := false }
    let events : FrameEvents :=
      { quarter := step.clock_quarter, half := step.clock_half, irq := false }
    let step_index := fc.step_index + 1
    match fc.mode with
    | FrameCounterMode.FourStep =>
        if step_index = sequence.length then
          ({ fc with step_index := 0, cycle_counter := 0 },
           { events with irq := !fc.irq_inhibit })
        else
          ({ fc with step_index := step_index, cycle_counter := cycle_counter }, events)
    | FrameCounterMode.FiveStep =>
        if step_index = sequence.length then
          ({ fc with step_index := 0, cycle_counter := 0 }, events)
        else
          ({ fc with step_index := step_index, cycle_counter := cycle_counter }, events)
  else
    ({ fc with cycle_counter := cycle_counter },
     { quarter := false, half := false, irq := false })

/-- State of the frame counter after n ticks from a given start state. -/
def frameTickN (fc : FrameCounter) : Nat → FrameCounter
  | 0 => fc
  | n + 1 => (FrameCounter.tick (frameTickN fc n)).1

/-- Whether the (n+1)-th tick from the fresh 4-step frame counter emits the
IRQ event. -/
def frameIrqAt (n : Nat) : Bool :=
  (FrameCounter.tick (frameTickN FrameCounter.new n)).2.irq

/-- Sequencer step index the 4-step frame counter holds at internal cycle
count n, for n below 14916. -/
def stepOfCycle (n : Nat) : Nat :=
  if n < 3729 then 0 else if n < 7457 then 1 else if n < 11186 then 2 else 3

/-- Closed form of the 4-step frame-counter state within one frame. -/
def fcState (n : Nat) : FrameCounter :=
  { mode := FrameCounterMode.FourStep, step_index := stepOfCycle n,
    cycle_counter := n, irq_inhibit := false }

theorem tick_miss0 (cc : Nat) (hne : cc + 1 ≠ 3729) :
    FrameCounter.tick ⟨FrameCounterMode.FourStep, 0, cc, false⟩ =
      (⟨FrameCounterMode.FourStep, 0, cc + 1, false⟩, ⟨false, false, false⟩) := by
  simp only [FrameCounter.tick]
  rw [if_neg]
  simp only [FOUR_STEP_SEQ, List.getD_cons_zero, List.length_cons, List.length_nil]
  omega

theorem tick_miss1 (cc : Nat) (hne : cc + 1 ≠ 7457) :
    FrameCounter.tick ⟨FrameCounterMode.FourStep, 1, cc, false⟩ =
      (⟨FrameCounterMode.FourStep, 1, cc + 1, false⟩, ⟨false, false, false⟩) := by
  simp only [FrameCounter.tick]
  rw [if_neg]
  simp only [FOUR_STEP_SEQ, List.getD_cons_zero, List.getD_cons_succ,
    List.length_cons, List.length_nil]
  omega

theorem tick_miss2 (cc : Nat) (hne : cc + 1 ≠ 11186) :
    FrameCounter.tick ⟨FrameCounterMode.FourStep, 2, cc, false⟩ =
      (⟨FrameCounterMode.FourStep, 2, cc + 1, false⟩, ⟨false, false, false⟩) := by
  simp only [FrameCounter.tick]
  rw [if_neg]
  simp only [FOUR_STEP_SEQ, List.getD_cons_zero, List.getD_cons_succ,
    List.length_cons, List.length_nil]
  omega

theorem tick_miss3 (cc : Nat) (hne : cc + 1 ≠ 14916) :
    FrameCounter.tick ⟨FrameCounterMode.FourStep, 3, cc, false⟩ =
      (⟨FrameCounterMode.FourStep, 3, cc + 1, false⟩, ⟨false, false, false⟩) := by
  simp only [FrameCounter.tick]
  rw [if_neg]
  simp only [FOUR_STEP_SEQ, List.getD_cons_zero, List.getD_cons_succ,
    List.length_cons, List.length_nil]
  omega

theorem tick_hit0 (cc : Nat) (heq : cc + 1 = 3729) :
    FrameCounter.tick ⟨FrameCounterMode.FourStep, 0, cc, false⟩ =
      (⟨FrameCounterMode.FourStep, 1, cc + 1, false⟩, ⟨true, false, false⟩) := by
  have hcc : cc = 3728 := by omega
  subst hcc
  decide

theorem tick_hit1 (cc : Nat) (heq : cc + 1 = 7457) :
    FrameCounter.tick ⟨FrameCounterMode.FourStep, 1, cc, false⟩ =
      (⟨FrameCounterMode.FourStep, 2, cc + 1, false⟩, ⟨true, true, false⟩) := by
  have hcc : cc = 7456 := by omega
  subst hcc
  decide

theorem tick_hit2 (cc : Nat) (heq : cc + 1 = 11186) :
    FrameCounter.tick ⟨FrameCounterMode.FourStep, 2, cc, false⟩ =
      (⟨FrameCounterMode.FourStep, 3, cc + 1, false⟩, ⟨true, false, false⟩) := by
  have hcc : cc = 11185 := by omega
  subst hcc
  decide

theorem fcState_14915_tick :
    FrameCounter.tick (fcState 14915) = (FrameCounter.new, ⟨true, true, true⟩) := by
  decide

theorem tick_fcState_step (n : Nat) (h : n < 14915) :
    ∃ ev : FrameEvents, ev.irq = false ∧
      FrameCounter.tick (fcState n) = (fcState (n + 1), ev) := by
  by_cases h1 : n + 1 < 3729
  · have e1 : stepOfCycle n = 0 := by unfold stepOfCycle; rw [if_pos (by omega)]
    have e2 : stepOfCycle (n + 1) = 0 := by unfold stepOfCycle; rw [if_pos (by omega)]
    refine ⟨⟨false, false, false⟩, rfl, ?_⟩
    simp only [fcState, e1, e2]
    exact tick_miss0 n (by omega)
  by_cases h2 : n + 1 = 3729
  · have e1 : stepOfCycle n = 0 := by unfold stepOfCycle; rw [if_pos (by omega)]
    have e2 : stepOfCycle (n + 1) = 1 := by
      unfold stepOfCycle; rw [if_neg (by omega), if_pos (by omega)]
    refine ⟨⟨true, false, false⟩, rfl, ?_⟩
    simp only [fcState, e1, e2]
    exact tick_hit0 n h2
  by_cases h3 : n + 1 < 7457
  · have e1 : stepOfCycle n = 1 := by
      unfold stepOfCycle; rw [if_neg (by omega), if_pos (by omega)]
    have e2 : stepOfCycle (n + 1) = 1 := by
      unfold stepOfCycle; rw [if_neg (by omega), if_pos (by omega)]
    refine ⟨⟨false, false, false⟩, rfl, ?_⟩
    simp only [fcState, e1, e2]
    exact tick_miss1 n (by omega)
  by_cases h4 : n + 1 = 7457
  · have e1 : stepOfCycle n = 1 := by
      unfold stepOfCycle; rw [if_neg (by omega), if_pos (by omega)]
    have e2 : stepOfCycle (n + 1) = 2 := by
      unfold stepOfCycle; rw [if_neg (by omega), if_neg (by omega), if_pos (by omega)]
    refine ⟨⟨true, true, false⟩, rfl, ?_⟩
    simp only [fcState, e1, e2]
    exact tick_hit1 n h4
  by_cases h5 : n + 1 < 11186
  · have e1 : stepOfCycle n = 2 := by
      unfold stepOfCycle; rw [if_neg (by omega), if_neg (by omega), if_pos (by omega)]
    have e2 : stepOfCycle (n + 1) = 2 := by
      unfold stepOfCycle; rw [if_neg (by omega), if_neg (by omega), if_pos (by omega)]
    refine ⟨⟨false, false, false⟩, rfl, ?_⟩
    simp only [fcState, e1, e2]
    exact tick_miss2 n (by omega)
  by_cases h6 : n + 1 = 11186
  · have e1 : stepOfCycle n = 2 := by
      unfold stepOfCycle; rw [if_neg (by omega), if_neg (by omega), if_pos (by omega)]
    have e2 : stepOfCycle (n + 1) = 3 := by
      unfold stepOfCycle; rw [if_neg (by omega), if_neg (by omega), if_neg (by omega)]
    refine ⟨⟨true, false, false⟩, rfl, ?_⟩
    simp only [fcState, e1, e2]
    exact tick_hit2 n h6
  · have e1 : stepOfCycle n = 3 := by
      unfold stepOfCycle; rw [if_neg (by omega), if_neg (by omega), if_neg (by omega)]
    have e2 : stepOfCycle (n + 1) = 3 := by
      unfold stepOfCycle; rw [if_neg (by omega), if_neg (by omega), if_neg (by omega)]
    refine ⟨⟨false, false, false⟩, rfl, ?_⟩
    simp only [fcState, e1, e2]
    exact tick_miss3 n (by omega)

theorem frameTickN_closed (n : Nat) (h : n < 14916) :
    frameTickN FrameCounter.new n = fcState n := by
  induction n with
  | zero => rfl
  | succ n ih =>
      obtain ⟨ev, hev, heq⟩ := tick_fcState_step n (by omega)
      show (FrameCounter.tick (frameTickN FrameCounter.new n)).1 = fcState (n + 1)
      rw [ih (by omega), heq]

theorem frameTickN_add (a b : Nat) :
    frameTickN FrameCounter.new (a + b) =
      frameTickN (frameTickN FrameCounter.new a) b := by
  induction b with
  | zero => rfl
  | succ b ih =>
      show (FrameCounter.tick (frameTickN FrameCounter.new (a + b))).1 =
        (FrameCounter.tick (frameTickN (frameTickN FrameCounter.new a) b)).1
      rw [ih]

theorem frameTickN_succ (fc : FrameCounter) (n : Nat) :
    frameTickN fc (n + 1) = (FrameCounter.tick (frameTickN fc n)).1 := rfl

theorem frameTickN_zero (fc : FrameCounter) : frameTickN fc 0 = fc := rfl

theorem frameTickN_full_period :
    frameTickN FrameCounter.new 14916 = FrameCounter.new := by
  rw [show (14916 : Nat) = 14915 + 1 from rfl, frameTickN_succ,
    frameTickN_closed 14915 (by norm_num), fcState_14915_tick]

theorem frameTickN_mod (n : Nat) :
    frameTickN FrameCounter.new n = frameTickN FrameCounter.new (n % 14916) := by
  induction n using Nat.strong_induction_on with
  | _ n ih =>
    by_cases h : n < 14916
    · rw [Nat.mod_eq_of_lt h]
    · have h2 : frameTickN FrameCounter.new n =
          frameTickN FrameCounter.new (n - 14916) := by
        conv_lhs => rw [show n = 14916 + (n - 14916) by omega]
        rw [frameTickN_add, frameTickN_full_period]
      rw [h2, ih (n - 14916) (by omega),
        show (n - 14916) % 14916 = n % 14916 by omega]

/-- C6: from the reset state, the 4-step frame counter with IRQ-inhibit
clear emits the IRQ event exactly on every 14916-th tick (once per 14916
CPU cycles, within one cycle of the 14915 stated by the spec), and at each
such tick it is at the fourth sequencer step (index 3) and restarts from
step 0, cycle 0. -/
theorem c6_frame_irq_period :
    (∀ n : Nat, frameIrqAt n = true ↔ (n + 1) % 14916 = 0) ∧
    (∀ n : Nat, (n + 1) % 14916 = 0 →
      (frameTickN FrameCounter.new n).step_index = 3 ∧
      frameTickN FrameCounter.new (n + 1) = FrameCounter.new) ∧
    14916 ≤ 14915 + 1 ∧ 14915 ≤ 14916 := by
  have hkey : ∀ n : Nat, frameIrqAt n = true ↔ n % 14916 = 14915 := by
    intro n
    unfold frameIrqAt
    rw [frameTickN_mod, frameTickN_closed (n % 14916) (Nat.mod_lt _ (by norm_num))]
    by_cases h : n % 14916 = 14915
    · rw [h, fcState_14915_tick]
      simp
    · obtain ⟨ev, hev, heq⟩ := tick_fcState_step (n % 14916) (by omega)
      rw [heq]
      simp [hev, h]
  refine ⟨?_, ?_, by norm_num, by norm_num⟩
  · intro n
    rw [hkey n]
    omega
  · intro n hn
    have h1 : n % 14916 = 14915 := by omega
    constructor
    · rw [frameTickN_mod, h1, frameTickN_closed 14915 (by norm_num)]
      decide
    · rw [frameTickN_mod, hn, frameTickN_zero]


/-- Witness for the frame-counter theorem at the first IRQ tick. -/
theorem c6_frame_irq_period_witness :
    (14915 + 1) % 14916 = 0 ∧
    frameIrqAt 14915 = true ∧
    (frameTickN FrameCounter.new 14915).step_index = 3 ∧
    frameTickN FrameCounter.new (14915 + 1) = FrameCounter.new :=
  ⟨by norm_num,
   (c6_frame_irq_period.1 14915).mpr (by norm_num),
   (c6_frame_irq_period.2.1 14915 (by norm_num)).1,
   (c6_frame_irq_period.2.1 14915 (by norm_num)).2⟩
